import Mathlib

/-!
Verification of the couch-rs client data-model layer.

Shallow embedding of `src/couch_rs/src/document.rs`, `src/couch_rs/src/error.rs`
and `src/couch_rs/src/types/view.rs`:

* `Json` models `serde_json::Value`; an object is an association list of
  fields (serde_json's map; lookup finds the first matching key, insertion
  overwrites an existing key in place or appends a fresh one, which matches
  the map's insert-or-overwrite contract at the level of lookups).
* The `TypedCouchDocument` impl for `Value` (get_id/get_rev/set_id/set_rev/
  merge_ids) becomes the functions `Json.get_id` etc.
* `DocumentCollection` and its three constructors are translated directly;
  generic type parameters `T: TypedCouchDocument` become an explicit
  identity accessor (for `new`) or an explicit decoder (for
  `new_from_values`, standing for `serde_json::from_value::<T>(_).ok()`).
  Machine-width concerns (`u32::try_from(...).expect`) do not matter to the
  claims (list lengths are Nat), so counts are Nat.
* The error taxonomy `CouchError` with `status`, `is_not_found` and
  `into_option` is translated directly; HTTP status codes are Nat and the
  opaque boxed upstream error is dropped (it carries no behaviour).
-/

set_option maxHeartbeats 1000000

namespace CouchRs

/-- Model of `serde_json::Value`. Numbers are irrelevant to every claim, an
integer payload suffices. -/
inductive Json where
  | null : Json
  | bool : Bool → Json
  | num : Int → Json
  | str : String → Json
  | arr : List Json → Json
  | obj : List (String × Json) → Json
  deriving Repr

/-- The canonical identity field name (`ID_FIELD` in document.rs). -/
def ID_FIELD : String := "_id"

/-- The canonical revision field name (`REV_FIELD` in document.rs). -/
def REV_FIELD : String := "_rev"

/-- First-match lookup in an object's field list (serde_json map lookup). -/
def lookupField : List (String × Json) → String → Option Json
  | [], _ => none
  | (k, v) :: rest, key => if k = key then some v else lookupField rest key

/-- Insert-or-overwrite of a field (serde_json `Map::insert`): replaces the
first binding of the key in place, otherwise appends the binding. -/
def insertField : List (String × Json) → String → Json → List (String × Json)
  | [], key, val => [(key, val)]
  | (k, v) :: rest, key, val =>
      if k = key then (key, val) :: rest else (k, v) :: insertField rest key val

/-- `serde_json`'s `Index<&str>` for `Value`: returns the member when `self`
is an object holding the key, and `Value::Null` otherwise (no panic). -/
def Json.index (v : Json) (key : String) : Json :=
  match v with
  | .obj fields => (lookupField fields key).getD .null
  | _ => .null

/-- `serde_json::from_value::<String>`: succeeds exactly on JSON strings. -/
def fromValueString : Json → Option String
  | .str s => some s
  | _ => none

/-- Whether the value is a JSON object (`Value::as_object_mut` succeeds). -/
def Json.isObj : Json → Bool
  | .obj _ => true
  | _ => false

/-- `<Value as TypedCouchDocument>::get_id`:
`json_extr!(self[ID_FIELD])`, i.e. `from_value::<String>(..).unwrap_or_default()`. -/
def Json.get_id (v : Json) : String :=
  (fromValueString (v.index ID_FIELD)).getD ""

/-- `<Value as TypedCouchDocument>::get_rev`. -/
def Json.get_rev (v : Json) : String :=
  (fromValueString (v.index REV_FIELD)).getD ""

/-- `<Value as TypedCouchDocument>::set_id`: insert/overwrite `_id` when the
value is an object, otherwise do nothing. -/
def Json.set_id (v : Json) (id : String) : Json :=
  match v with
  | .obj fields => .obj (insertField fields ID_FIELD (.str id))
  | _ => v

/-- `<Value as TypedCouchDocument>::set_rev`. -/
def Json.set_rev (v : Json) (rev : String) : Json :=
  match v with
  | .obj fields => .obj (insertField fields REV_FIELD (.str rev))
  | _ => v

/-- `<Value as TypedCouchDocument>::merge_ids`:
`self.set_id(&other.get_id()); self.set_rev(&other.get_rev());`. -/
def Json.merge_ids (v other : Json) : Json :=
  (v.set_id other.get_id).set_rev other.get_rev

/-- `DocumentCollection<T>` (document.rs). -/
structure DocumentCollection (T : Type) where
  offset : Option Nat
  rows : List T
  total_rows : Nat
  bookmark : Option String
  deriving Repr

/-- `DocResponseValue` (document.rs). -/
structure DocResponseValue where
  rev : String
  deriving Repr

/-- `DocResponse<T>` (document.rs): one row of an `_all_docs`-style response. -/
structure DocResponse (T : Type) where
  id : Option String
  key : Option Json
  value : Option DocResponseValue
  error : Option String
  doc : Option T
  deriving Repr

/-- `AllDocsResponse<T>` (document.rs). -/
structure AllDocsResponse (T : Type) where
  total_rows : Option Nat
  offset : Option Nat
  rows : List (DocResponse T)
  deriving Repr

/-- `Option::filter` from Rust's std. -/
def optionFilter (p : T → Bool) : Option T → Option T
  | some a => if p a then some a else none
  | none => none

/-- The per-row closure inside `DocumentCollection::new`:
`if d.error.is_some() { None } else
 { d.doc.filter(|doc| !doc.get_id().starts_with('_')) }`. -/
def newRowFilter (getId : T → String) (d : DocResponse T) : Option T :=
  if d.error.isSome then
    none
  else
    optionFilter (fun t => !(getId t).startsWith "_") d.doc

/-- `DocumentCollection::new`. The trait method `T::get_id` is passed
explicitly as `getId` (models the `T: TypedCouchDocument` bound). Per the
source: `filter_map` the rows through `newRowFilter`; `total_rows` is the
kept count. -/
def DocumentCollection.new (getId : T → String) (doc : AllDocsResponse T) :
    DocumentCollection T :=
  let items : List T := doc.rows.filterMap (newRowFilter getId)
  { offset := doc.offset
    total_rows := items.length
    rows := items
    bookmark := none }

/-- `DocumentCollection::new_from_documents`. -/
def DocumentCollection.new_from_documents (docs : List T)
    (bookmark : Option String) : DocumentCollection T :=
  { offset := some 0
    total_rows := docs.length
    rows := docs
    bookmark := bookmark }

/-- `DocumentCollection::new_from_values`. The generic decode
`serde_json::from_value::<T>(d).ok()` is passed explicitly as `dec`.
Per the source, `total_rows` is the length of the *input* vector, computed
before the decode filter. -/
def DocumentCollection.new_from_values (dec : Json → Option T)
    (docs : List Json) (bookmark : Option String) : DocumentCollection T :=
  { offset := some 0
    total_rows := docs.length
    rows := docs.filterMap (fun d => dec d)
    bookmark := bookmark }

/-- `<DocumentCollection as Index<usize>>::index`:
`self.rows.get(index).unwrap()`. `none` models the `unwrap` panic on an
out-of-bounds index. -/
def DocumentCollection.indexGet (c : DocumentCollection T) (i : Nat) : Option T :=
  c.rows.get? i

/-- `<DocumentCollection as IndexMut<usize>>::index_mut`:
`self.rows.get_mut(index).unwrap()`. The mutable borrow is modelled by the
element it designates; `none` models the `unwrap` panic. -/
def DocumentCollection.indexMutGet (c : DocumentCollection T) (i : Nat) :
    Option T :=
  c.rows.get? i

/-- `ErrorDetails` (error.rs); the opaque `upstream` box is dropped. -/
structure ErrorDetails where
  id : Option String
  status : Nat
  message : String
  deriving Repr, DecidableEq

/-- `ErrorMessage` (error.rs); the opaque `upstream` box is dropped. -/
structure ErrorMessage where
  message : String
  deriving Repr, DecidableEq

/-- The `CouchError` taxonomy (error.rs). -/
inductive CouchError where
  | operationFailed : ErrorDetails → CouchError
  | invalidJson : ErrorMessage → CouchError
  | malformedUrl : ErrorMessage → CouchError
  | createDesignFailed : ErrorMessage → CouchError
  deriving Repr, DecidableEq

/-- `CouchError::new`. -/
def CouchError.new (message : String) (status : Nat) : CouchError :=
  .operationFailed { id := none, status := status, message := message }

/-- `CouchError::new_with_id`. -/
def CouchError.new_with_id (id : Option String) (message : String)
    (status : Nat) : CouchError :=
  .operationFailed { id := id, status := status, message := message }

/-- `CouchError::status`. -/
def CouchError.status : CouchError → Option Nat
  | .operationFailed details => some details.status
  | _ => none

/-- `CouchError::is_not_found`: `self.status() == Some(StatusCode::NOT_FOUND)`. -/
def CouchError.is_not_found (e : CouchError) : Bool :=
  e.status == some 404

/-- `CouchResult<T>` (error.rs). -/
abbrev CouchResult (T : Type) := Except CouchError T

/-- `CouchResultExt::into_option` (error.rs). -/
def intoOption (r : CouchResult T) : CouchResult (Option T) :=
  match r with
  | .ok x => .ok (some x)
  | .error err => if err.is_not_found then .ok none else .error err

/-! ### View decoding (types/view.rs)

`ViewItem<K, V, T>` derives `Deserialize`. Its derived deserializer is
modelled field by field with standard serde semantics: a field whose key is
present is decoded with its type's deserializer; a field whose key is absent
is an error (`missing field`) unless its type is `Option<_>`, in which case
it becomes `None`; unknown keys are ignored; a non-object input is an
error. `Option<A>::deserialize` maps a literal `null` to `None` and
otherwise wraps `A`'s deserializer. -/

/-- A field of a serde-derived struct: its deserializer plus what the
derived code does when the key is absent (`some d` only for `Option` fields,
which default to `None`). -/
structure FieldSpec (A : Type) where
  dec : Json → Option A
  onAbsent : Option A

/-- A required (non-`Option`) field: absence is a decode error. -/
def FieldSpec.required (dec : Json → Option A) : FieldSpec A :=
  { dec := dec, onAbsent := none }

/-- `Option<A>::deserialize`: `null` decodes to `None`, anything else is
delegated to `A`'s deserializer and wrapped in `Some`. -/
def decodeOption (dec : Json → Option A) : Json → Option (Option A)
  | .null => some none
  | j => (dec j).map some

/-- An `Option<A>` field: absent keys become `None`. -/
def FieldSpec.optionField (dec : Json → Option A) : FieldSpec (Option A) :=
  { dec := decodeOption dec, onAbsent := some none }

/-- Decode one struct field from the object's field list. -/
def decodeField (fs : FieldSpec A) (fields : List (String × Json))
    (key : String) : Option A :=
  match lookupField fields key with
  | some j => fs.dec j
  | none => fs.onAbsent

/-- `Value::deserialize`: every JSON value decodes into `serde_json::Value`. -/
def decodeJson (j : Json) : Option Json :=
  some j

/-- `u32::deserialize`: an integer in range. -/
def decodeNat : Json → Option Nat
  | .num n => if 0 ≤ n ∧ n < 4294967296 then some n.toNat else none
  | _ => none

/-- Decode every element of a JSON array member list (`Vec<_>`): any failing
element fails the whole vector. -/
def decodeElems (dec : Json → Option A) : List Json → Option (List A)
  | [] => some []
  | x :: xs =>
      match dec x, decodeElems dec xs with
      | some a, some as => some (a :: as)
      | _, _ => none

/-- `ViewItem<K, V, T>` (types/view.rs). -/
structure ViewItem (K V T : Type) where
  key : K
  value : V
  id : Option String
  doc : Option T

/-- `ViewCollection<K, V, T>` (types/view.rs). -/
structure ViewCollection (K V T : Type) where
  offset : Option Nat
  rows : List (ViewItem K V T)
  total_rows : Option Nat

/-- The derived deserializer of `ViewItem<K, V, T>`: `key: K` and
`value: V` are required fields decoded with the deserializers of the
caller-chosen `K` and `V`; `id: Option<String>` and `doc: Option<T>` are
optional fields. -/
def decodeViewItem (kf : FieldSpec K) (vf : FieldSpec V)
    (td : Json → Option T) (j : Json) : Option (ViewItem K V T) :=
  match j with
  | .obj fields =>
      match decodeField kf fields "key", decodeField vf fields "value",
          decodeField (FieldSpec.optionField fromValueString) fields "id",
          decodeField (FieldSpec.optionField td) fields "doc" with
      | some k, some v, some id, some doc => some ⟨k, v, id, doc⟩
      | _, _, _, _ => none
  | _ => none

/-- The derived deserializer of `ViewCollection<K, V, T>`: optional
`offset`/`total_rows` counters and a required `rows: Vec<ViewItem<K,V,T>>`
whose elements are decoded strictly (any failing row fails the whole
response decode, which is how a row-local failure surfaces as a whole-query
error). -/
def decodeViewCollection (kf : FieldSpec K) (vf : FieldSpec V)
    (td : Json → Option T) (j : Json) : Option (ViewCollection K V T) :=
  match j with
  | .obj fields =>
      match decodeField (FieldSpec.optionField decodeNat) fields "offset",
          decodeField
            (FieldSpec.required (fun rj =>
              match rj with
              | .arr xs => decodeElems (decodeViewItem kf vf td) xs
              | _ => none))
            fields "rows",
          decodeField (FieldSpec.optionField decodeNat) fields "total_rows" with
      | some off, some rows, some tot => some ⟨off, rows, tot⟩
      | _, _, _ => none
  | _ => none

/-! ### Bulk-write reconciliation

The reconciler itself lives in `database.rs`, which is not part of the
sources under verification; only the spec describes it. It is therefore
modelled from the spec (§4.4) rather than translated. -/

/-- The `TypedCouchDocument` capability of a document type `T`
(`get_id`/`get_rev`/`set_id`/`set_rev` of document.rs), passed explicitly. -/
structure DocOps (T : Type) where
  get_id : T → String
  get_rev : T → String
  set_id : T → String → T
  set_rev : T → String → T

/-- One per-item outcome of the server's bulk response: per-item `id`/`rev`
on success, or an error (with optional id and an HTTP-style status) on
failure. -/
inductive BulkOutcome where
  | success (id : String) (rev : String) : BulkOutcome
  | failure (id : Option String) (status : Nat) (message : String) : BulkOutcome
  deriving Repr, DecidableEq

/-- The `{identity, revision}` payload of a successful per-item result. -/
structure CreatedDetails where
  id : String
  rev : String
  deriving Repr, DecidableEq

/-- Modelled from the spec: the BulkReconciler of §4.4 (`database.rs` is not
among the sources). Iterates the submitted documents and the server's
outcome array in lock-step by position; on a success it writes the reported
new revision into the document and, when the document's identity was empty
before the call, the server-assigned identity as well; on a failure it
leaves the document unmodified and records the failure (with the per-item
identity when the server supplied one). Returns the updated documents and
the per-item results, in input order. -/
def bulkReconcile (ops : DocOps T) :
    List T → List BulkOutcome → List T × List (CouchResult CreatedDetails)
  | [], _ => ([], [])
  | _ :: _, [] => ([], [])
  | d :: ds, o :: os =>
      let rest := bulkReconcile ops ds os
      match o with
      | .success id rev =>
          let d1 := if ops.get_id d = "" then ops.set_id d id else d
          let d2 := ops.set_rev d1 rev
          (d2 :: rest.1, .ok ⟨id, rev⟩ :: rest.2)
      | .failure oid status msg =>
          (d :: rest.1,
           .error (CouchError.new_with_id oid msg status) :: rest.2)

/-! ### Basic lemmas about object field lookup and insertion -/

/-- The member of an object under a key, `none` when the key is absent or
the value is not an object (distinguishes absence from a stored `null`,
which `Json.index` cannot). -/
def Json.member (v : Json) (key : String) : Option Json :=
  match v with
  | .obj fields => lookupField fields key
  | _ => none

theorem lookupField_insertField_self (fields : List (String × Json))
    (key : String) (val : Json) :
    lookupField (insertField fields key val) key = some val := by
  induction fields with
  | nil => simp [insertField, lookupField]
  | cons kv rest ih =>
      by_cases h : kv.1 = key <;>
        simp [insertField, lookupField, h, ih]

theorem lookupField_insertField_ne (fields : List (String × Json))
    (key k : String) (val : Json) (h : k ≠ key) :
    lookupField (insertField fields key val) k = lookupField fields k := by
  induction fields with
  | nil => simp [insertField, lookupField, Ne.symm h]
  | cons kv rest ih =>
      by_cases hk : kv.1 = key
      · subst hk
        simp [insertField, lookupField, h, Ne.symm h]
      · by_cases hk2 : kv.1 = k <;>
          simp [insertField, lookupField, hk, hk2, ih, h, Ne.symm h]

theorem member_set_id_self (fields : List (String × Json)) (s : String) :
    (Json.member ((Json.obj fields).set_id s)) ID_FIELD = some (.str s) := by
  simp [Json.set_id, Json.member, lookupField_insertField_self]

theorem member_set_rev_self (fields : List (String × Json)) (s : String) :
    (Json.member ((Json.obj fields).set_rev s)) REV_FIELD = some (.str s) := by
  simp [Json.set_rev, Json.member, lookupField_insertField_self]

theorem get_id_of_member_str (v : Json) (s : String)
    (h : v.member ID_FIELD = some (.str s)) : v.get_id = s := by
  cases v <;> simp [Json.member] at h <;>
    simp [Json.get_id, Json.index, h, fromValueString]

theorem get_rev_of_member_str (v : Json) (s : String)
    (h : v.member REV_FIELD = some (.str s)) : v.get_rev = s := by
  cases v <;> simp [Json.member] at h <;>
    simp [Json.get_rev, Json.index, h, fromValueString]

/-! ### Claims about the error model -/

/-- C5: `into_option` maps `Ok(x)` to `Ok(Some(x))`, a not-found error to
`Ok(None)` and any other error to itself; `is_not_found` holds exactly on an
`OperationFailed` whose status is 404, and is false on every `InvalidJson`,
`MalformedUrl` and `CreateDesignFailed`. -/
theorem into_option_not_found_spec :
    (∀ (T : Type) (x : T), intoOption (.ok x) = .ok (some x))
  ∧ (∀ (T : Type) (e : CouchError), e.is_not_found = true →
        intoOption (T := T) (.error e) = .ok none)
  ∧ (∀ (T : Type) (e : CouchError), e.is_not_found = false →
        intoOption (T := T) (.error e) = .error e)
  ∧ (∀ e : CouchError,
        e.is_not_found = true ↔
          ∃ d : ErrorDetails, e = .operationFailed d ∧ d.status = 404)
  ∧ (∀ m, (CouchError.invalidJson m).is_not_found = false)
  ∧ (∀ m, (CouchError.malformedUrl m).is_not_found = false)
  ∧ (∀ m, (CouchError.createDesignFailed m).is_not_found = false) := by
  refine ⟨fun T x => rfl, fun T e he => ?_, fun T e he => ?_, fun e => ?_,
    fun m => rfl, fun m => rfl, fun m => rfl⟩
  · simp [intoOption, he]
  · simp [intoOption, he]
  · constructor
    · intro h
      cases e with
      | operationFailed d =>
          refine ⟨d, rfl, ?_⟩
          simpa [CouchError.is_not_found, CouchError.status] using h
      | invalidJson m => simp [CouchError.is_not_found, CouchError.status] at h
      | malformedUrl m => simp [CouchError.is_not_found, CouchError.status] at h
      | createDesignFailed m =>
          simp [CouchError.is_not_found, CouchError.status] at h
    · rintro ⟨d, rfl, hd⟩
      simp [CouchError.is_not_found, CouchError.status, hd]

/-- Witness for the C5 theorem at concrete inputs. -/
theorem into_option_not_found_spec_witness :
    intoOption (T := Nat) (.error (CouchError.new "missing" 404)) = .ok none
  ∧ intoOption (T := Nat) (.error (CouchError.new "conflict" 409))
      = .error (CouchError.new "conflict" 409) :=
  ⟨into_option_not_found_spec.2.1 Nat (CouchError.new "missing" 404) (by decide),
   into_option_not_found_spec.2.2.1 Nat (CouchError.new "conflict" 409) (by decide)⟩

/-! ### Claims about the untyped document adapter -/

/-- C6: `get_id`/`get_rev` on an untyped JSON value are total (they are Lean
functions, hence never raise); they return the stored string when the
canonical field holds a string, and the empty string when the field is
absent, holds a non-string, or the value is not an object. -/
theorem get_id_get_rev_total_default :
    (∀ (fields : List (String × Json)) (s : String),
        lookupField fields ID_FIELD = some (.str s) →
        (Json.obj fields).get_id = s)
  ∧ (∀ fields : List (String × Json),
        lookupField fields ID_FIELD = none → (Json.obj fields).get_id = "")
  ∧ (∀ (fields : List (String × Json)) (j : Json),
        lookupField fields ID_FIELD = some j → fromValueString j = none →
        (Json.obj fields).get_id = "")
  ∧ (∀ v : Json, v.isObj = false → v.get_id = "")
  ∧ (∀ (fields : List (String × Json)) (s : String),
        lookupField fields REV_FIELD = some (.str s) →
        (Json.obj fields).get_rev = s)
  ∧ (∀ fields : List (String × Json),
        lookupField fields REV_FIELD = none → (Json.obj fields).get_rev = "")
  ∧ (∀ (fields : List (String × Json)) (j : Json),
        lookupField fields REV_FIELD = some j → fromValueString j = none →
        (Json.obj fields).get_rev = "")
  ∧ (∀ v : Json, v.isObj = false → v.get_rev = "") := by
  refine ⟨fun fields s h => ?_, fun fields h => ?_, fun fields j h hj => ?_,
    fun v h => ?_, fun fields s h => ?_, fun fields h => ?_,
    fun fields j h hj => ?_, fun v h => ?_⟩
  · simp [Json.get_id, Json.index, h, fromValueString]
  · simp [Json.get_id, Json.index, h, fromValueString]
  · simp [Json.get_id, Json.index, h, hj]
  · cases v <;> simp [Json.isObj] at h <;>
      simp [Json.get_id, Json.index, fromValueString]
  · simp [Json.get_rev, Json.index, h, fromValueString]
  · simp [Json.get_rev, Json.index, h, fromValueString]
  · simp [Json.get_rev, Json.index, h, hj]
  · cases v <;> simp [Json.isObj] at h <;>
      simp [Json.get_rev, Json.index, fromValueString]

/-- Witness for the C6 theorem at concrete inputs. -/
theorem get_id_get_rev_total_default_witness :
    (Json.obj [(ID_FIELD, .str "a"), ("x", .bool true)]).get_id = "a"
  ∧ (Json.obj [("x", .bool true)]).get_id = ""
  ∧ (Json.obj [(ID_FIELD, .num 3)]).get_id = ""
  ∧ (Json.str "hi").get_rev = "" :=
  ⟨get_id_get_rev_total_default.1 [(ID_FIELD, .str "a"), ("x", .bool true)] "a"
      (by simp [ID_FIELD, lookupField]),
   get_id_get_rev_total_default.2.1 [("x", .bool true)]
      (by simp [ID_FIELD, lookupField]),
   get_id_get_rev_total_default.2.2.1 [(ID_FIELD, .num 3)] (.num 3)
      (by simp [ID_FIELD, lookupField]) (by simp [fromValueString]),
   get_id_get_rev_total_default.2.2.2.2.2.2.2 (.str "hi") (by simp [Json.isObj])⟩

/-- C7: `set_id`/`set_rev` on a JSON object insert or overwrite exactly
the canonical field, leaving the member under every other key unchanged
(and the value stays an object); on a non-object they are a no-op. -/
theorem set_id_set_rev_frame (v : Json) (s t : String) :
    (v.isObj = true →
        (v.set_id s).member ID_FIELD = some (.str s)
        ∧ (∀ k, k ≠ ID_FIELD → (v.set_id s).member k = v.member k)
        ∧ (v.set_id s).isObj = true
        ∧ (v.set_rev t).member REV_FIELD = some (.str t)
        ∧ (∀ k, k ≠ REV_FIELD → (v.set_rev t).member k = v.member k)
        ∧ (v.set_rev t).isObj = true)
  ∧ (v.isObj = false → v.set_id s = v ∧ v.set_rev t = v) := by
  constructor
  · intro hobj
    cases v with
    | obj fields =>
        refine ⟨member_set_id_self fields s, fun k hk => ?_, rfl,
          member_set_rev_self fields t, fun k hk => ?_, rfl⟩
        · simp [Json.set_id, Json.member, lookupField_insertField_ne _ _ _ _ hk]
        · simp [Json.set_rev, Json.member, lookupField_insertField_ne _ _ _ _ hk]
    | null => simp [Json.isObj] at hobj
    | bool b => simp [Json.isObj] at hobj
    | num n => simp [Json.isObj] at hobj
    | str q => simp [Json.isObj] at hobj
    | arr xs => simp [Json.isObj] at hobj
  · intro hobj
    cases v <;> simp [Json.isObj] at hobj <;> simp [Json.set_id, Json.set_rev]

/-- Witness for the C7 theorem at concrete inputs. -/
theorem set_id_set_rev_frame_witness :
    ((Json.obj [("x", .num 1)]).set_id "d").member ID_FIELD = some (.str "d")
  ∧ ((Json.obj [("x", .num 1)]).set_id "d").member "x"
      = (Json.obj [("x", .num 1)]).member "x"
  ∧ (Json.arr []).set_id "d" = Json.arr [] :=
  ⟨((set_id_set_rev_frame (Json.obj [("x", .num 1)]) "d" "r").1 rfl).1,
   ((set_id_set_rev_frame (Json.obj [("x", .num 1)]) "d" "r").1 rfl).2.1 "x"
      (by decide),
   ((set_id_set_rev_frame (Json.arr []) "d" "r").2 rfl).1⟩

/-- C8: after `v.merge_ids(other)` on JSON objects, the identity and
revision read back from the merged value equal those of `other`. -/
theorem merge_ids_copies_id_rev (v other : Json)
    (hv : v.isObj = true) (hother : other.isObj = true) :
    (v.merge_ids other).get_id = other.get_id
    ∧ (v.merge_ids other).get_rev = other.get_rev := by
  cases v with
  | obj fields =>
      constructor
      · apply get_id_of_member_str
        show Json.member ((Json.obj
          (insertField fields ID_FIELD (.str other.get_id))).set_rev
            other.get_rev) ID_FIELD = _
        simp [Json.set_rev, Json.member]
        rw [lookupField_insertField_ne _ _ _ _ (by decide : ID_FIELD ≠ REV_FIELD),
          lookupField_insertField_self]
      · apply get_rev_of_member_str
        show Json.member ((Json.obj
          (insertField fields ID_FIELD (.str other.get_id))).set_rev
            other.get_rev) REV_FIELD = _
        simp [Json.set_rev, Json.member, lookupField_insertField_self]
  | null => simp [Json.isObj] at hv
  | bool b => simp [Json.isObj] at hv
  | num n => simp [Json.isObj] at hv
  | str q => simp [Json.isObj] at hv
  | arr xs => simp [Json.isObj] at hv

/-- Witness for the C8 theorem at concrete inputs. -/
theorem merge_ids_copies_id_rev_witness :
    ((Json.obj [("x", .bool true)]).merge_ids
        (Json.obj [(ID_FIELD, .str "A"), (REV_FIELD, .str "R")])).get_id
      = (Json.obj [(ID_FIELD, .str "A"), (REV_FIELD, .str "R")]).get_id :=
  (merge_ids_copies_id_rev (Json.obj [("x", .bool true)])
    (Json.obj [(ID_FIELD, .str "A"), (REV_FIELD, .str "R")]) rfl rfl).1

/-! ### Claims about `DocumentCollection` assembly -/

/-- A row that `DocumentCollection::new` keeps: no error marker and an
embedded document whose identity does not start with the internal prefix. -/
def keepRow (getId : T → String) (d : DocResponse T) : Bool :=
  d.error.isNone &&
    match d.doc with
    | some t => !(getId t).startsWith "_"
    | none => false

/-- A row holding an embedded internal (`_`-prefixed) document. -/
def internalRow (getId : T → String) (d : DocResponse T) : Bool :=
  match d.doc with
  | some t => (getId t).startsWith "_"
  | none => false

theorem newRowFilter_eq_keep (getId : T → String) (d : DocResponse T) :
    newRowFilter getId d = if keepRow getId d then d.doc else none := by
  cases he : d.error with
  | some e => simp [newRowFilter, keepRow, he]
  | none =>
      cases hd : d.doc with
      | none => simp [newRowFilter, keepRow, optionFilter, he, hd]
      | some t =>
          by_cases hs : (getId t).startsWith "_" <;>
            simp [newRowFilter, keepRow, optionFilter, he, hd, hs]

theorem kept_filterMap_eq (getId : T → String) (rows : List (DocResponse T)) :
    rows.filterMap (newRowFilter getId)
      = rows.filterMap (fun d => if keepRow getId d then d.doc else none) :=
  List.filterMap_congr (fun d _ => newRowFilter_eq_keep getId d)

theorem kept_count_eq (getId : T → String) (rows : List (DocResponse T)) :
    (rows.filterMap (newRowFilter getId)).length
      + rows.countP (fun d => d.error.isSome)
      + rows.countP (fun d => d.error.isNone && internalRow getId d)
      + rows.countP (fun d => d.error.isNone && d.doc.isNone)
      = rows.length := by
  induction rows with
  | nil => rfl
  | cons d rest ih =>
      rw [List.length_cons, List.countP_cons, List.countP_cons,
        List.countP_cons]
      cases he : d.error with
      | some e =>
          rw [List.filterMap_cons_none
            (show newRowFilter getId d = none by simp [newRowFilter, he])]
          simp only [internalRow] at ih ⊢
          simp [he]
          omega
      | none =>
          cases hd : d.doc with
          | none =>
              rw [List.filterMap_cons_none
                (show newRowFilter getId d = none by
                  simp [newRowFilter, optionFilter, he, hd])]
              simp only [internalRow] at ih ⊢
              simp [he, hd]
              omega
          | some t =>
              by_cases hs : (getId t).startsWith "_"
              · rw [List.filterMap_cons_none
                  (show newRowFilter getId d = none by
                    simp [newRowFilter, optionFilter, he, hd, hs])]
                simp only [internalRow] at ih ⊢
                simp [he, hd, hs]
                omega
              · rw [List.filterMap_cons_some
                  (show newRowFilter getId d = some t by
                    simp [newRowFilter, optionFilter, he, hd, hs])]
                simp only [internalRow] at ih ⊢
                simp [he, hd, hs]
                omega

/-- C1 (amended): `DocumentCollection::new` keeps, in server order, exactly
the documents of the rows that carry no error marker and hold an embedded
document whose identity does not start with `_`; writing `N` for the raw
row count, `E` for the rows with an error marker, `I` for the error-free
rows holding an internal document and `D` for the error-free rows holding
no embedded document at all, `total_rows + E + I + D = N` and
`rows.len() = total_rows`. (The claim as frozen omits `D`.) -/
theorem new_collection_assembly (T : Type) (getId : T → String)
    (resp : AllDocsResponse T) :
    ((DocumentCollection.new getId resp).rows
        = resp.rows.filterMap (fun d => if keepRow getId d then d.doc else none))
  ∧ ((DocumentCollection.new getId resp).total_rows
        + resp.rows.countP (fun d => d.error.isSome)
        + resp.rows.countP (fun d => d.error.isNone && internalRow getId d)
        + resp.rows.countP (fun d => d.error.isNone && d.doc.isNone)
        = resp.rows.length)
  ∧ ((DocumentCollection.new getId resp).rows.length
        = (DocumentCollection.new getId resp).total_rows) := by
  refine ⟨kept_filterMap_eq getId resp.rows, kept_count_eq getId resp.rows, rfl⟩

/-- A raw response with a single row that carries no error marker and no
embedded document. -/
def docLessResponse : AllDocsResponse Json :=
  { total_rows := some 1
    offset := none
    rows := [{ id := some "a", key := none, value := none,
               error := none, doc := none }] }

/-- C1 counterexample: on a response whose one row has neither an error
marker nor an embedded document (`N = 1`, `E = 0`, `I = 0`), the built
collection has `total_rows = 0`, not `N - E - I = 1`: the claim's count
formula fails because rows without an embedded document are also dropped. -/
theorem new_collection_counterexample :
    ¬ ((DocumentCollection.new Json.get_id docLessResponse).total_rows
        = docLessResponse.rows.length
          - docLessResponse.rows.countP (fun d => d.error.isSome)
          - docLessResponse.rows.countP (fun d => internalRow Json.get_id d)) := by
  decide

/-- C2 (amended): `total_rows` equals `rows.len()` for collections built by
`new` and `new_from_documents`; for `new_from_values` it equals the length
of the *input* value sequence, of which `rows.len()` is only a lower bound
(elements that fail to decode are dropped from `rows` but still counted). -/
theorem total_rows_vs_rows_len (T : Type) (getId : T → String)
    (resp : AllDocsResponse T) (docs : List T) (vals : List Json)
    (dec : Json → Option T) (bm bm2 : Option String) :
    ((DocumentCollection.new getId resp).total_rows
        = (DocumentCollection.new getId resp).rows.length)
  ∧ ((DocumentCollection.new_from_documents docs bm).total_rows
        = (DocumentCollection.new_from_documents docs bm).rows.length)
  ∧ ((DocumentCollection.new_from_values dec vals bm2).total_rows
        = vals.length)
  ∧ ((DocumentCollection.new_from_values dec vals bm2).rows.length
        ≤ (DocumentCollection.new_from_values dec vals bm2).total_rows) := by
  refine ⟨rfl, rfl, rfl, ?_⟩
  simpa [DocumentCollection.new_from_values] using
    List.length_filterMap_le (fun d => dec d) vals

/-- C2 counterexample: `new_from_values` targeting `T = String` (decode
`serde_json::from_value::<String>`, i.e. `fromValueString`) on the input
`[null]` yields `total_rows = 1` but `rows.len() = 0`, refuting
`total_rows == rows.len()` for the `new_from_values` constructor. -/
theorem total_rows_vs_rows_len_counterexample :
    ¬ ((DocumentCollection.new_from_values fromValueString [Json.null]
          none).total_rows
        = (DocumentCollection.new_from_values fromValueString [Json.null]
          none).rows.length) := by
  decide

/-- C9: `new_from_values` is total (a Lean function, it fails on no input);
a value that fails to decode into `T` is dropped and every value that
decodes is kept, in the input order (`rows` is exactly the in-order
image of the decodable inputs, and its length counts them). -/
theorem new_from_values_drops_undecodable (T : Type) (dec : Json → Option T)
    (docs : List Json) (bm : Option String) :
    ((DocumentCollection.new_from_values dec docs bm).rows
        = docs.filterMap dec)
  ∧ ((DocumentCollection.new_from_values dec docs bm).rows.length
        = (docs.filter (fun d => (dec d).isSome)).length) := by
  refine ⟨rfl, ?_⟩
  show (docs.filterMap (fun d => dec d)).length = _
  induction docs with
  | nil => rfl
  | cons d rest ih =>
      rw [List.filterMap_cons, List.filter_cons]
      cases hd : dec d <;> simp [hd, ih]

/-- C10: collection indexing (`Index` and `IndexMut`, both
`rows.get(index).unwrap()`) returns the `i`-th row when `i < rows.len()`
and panics (modelled `none`) when `i ≥ rows.len()`; under the precondition
`i < rows.len()` the panic branch is unreachable (the result is `some`). -/
theorem collection_index_spec (T : Type) (c : DocumentCollection T) (i : Nat) :
    (∀ h : i < c.rows.length,
        c.indexGet i = some (c.rows.get ⟨i, h⟩)
        ∧ c.indexMutGet i = some (c.rows.get ⟨i, h⟩))
  ∧ (c.rows.length ≤ i → c.indexGet i = none ∧ c.indexMutGet i = none) := by
  constructor
  · intro h
    constructor <;>
      simp [DocumentCollection.indexGet, DocumentCollection.indexMutGet,
        List.get?_eq_get h]
  · intro h
    exact ⟨List.get?_eq_none.mpr h, List.get?_eq_none.mpr h⟩

/-- Witness for the C10 theorem at a concrete collection and indices. -/
theorem collection_index_spec_witness :
    (DocumentCollection.new_from_documents [10, 20] none).indexGet 1 = some 20
  ∧ (DocumentCollection.new_from_documents [10, 20] none).indexGet 2 = none :=
  ⟨((collection_index_spec Nat
      (DocumentCollection.new_from_documents [10, 20] none) 1).1
        (by decide)).1,
   ((collection_index_spec Nat
      (DocumentCollection.new_from_documents [10, 20] none) 2).2
        (by decide)).1⟩

/-! ### Claims about view-row decoding -/

theorem decodeElems_elem_none (dec : Json → Option A) (pre post : List Json)
    (r : Json) (h : dec r = none) :
    decodeElems dec (pre ++ r :: post) = none := by
  induction pre with
  | nil => simp [decodeElems, h]
  | cons x xs ih => cases hx : dec x <;> simp [decodeElems, hx, ih]

/-- A view row whose value position is literally `null`. -/
def rowValueNull : Json := .obj [("key", .null), ("value", .null)]

/-- A view row whose value position is absent. -/
def rowValueAbsent : Json := .obj [("key", .null)]

/-- C4 (amended): for a view row whose value position is literally `null`,
decoding succeeds when `V` is `serde_json::Value` or an `Option` type and
fails when `V` is `String`; for a row whose value position is absent,
decoding succeeds only for an `Option` type (serde's missing-field
handling) — it fails for `serde_json::Value` as well as for `String`; and
whenever one row fails to decode, the whole view-collection decode (hence
the whole query call) returns an error instead of dropping the row. -/
theorem view_value_null_decoding :
    (decodeViewItem (T := Json) (FieldSpec.required decodeJson)
        (FieldSpec.required decodeJson) decodeJson rowValueNull
      = some ⟨.null, .null, none, none⟩)
  ∧ (decodeViewItem (T := Json) (FieldSpec.required decodeJson)
        (FieldSpec.optionField decodeJson) decodeJson rowValueNull
      = some ⟨.null, none, none, none⟩)
  ∧ (decodeViewItem (T := Json) (FieldSpec.required decodeJson)
        (FieldSpec.required fromValueString) decodeJson rowValueNull = none)
  ∧ (decodeViewItem (T := Json) (FieldSpec.required decodeJson)
        (FieldSpec.optionField decodeJson) decodeJson rowValueAbsent
      = some ⟨.null, none, none, none⟩)
  ∧ (decodeViewItem (T := Json) (FieldSpec.required decodeJson)
        (FieldSpec.required fromValueString) decodeJson rowValueAbsent = none)
  ∧ (∀ (K V T : Type) (kf : FieldSpec K) (vf : FieldSpec V)
        (td : Json → Option T) (pre post : List Json) (r : Json),
        decodeViewItem kf vf td r = none →
        decodeViewCollection kf vf td
          (.obj [("rows", .arr (pre ++ r :: post))]) = none) := by
  refine ⟨rfl, rfl, rfl, rfl, rfl, ?_⟩
  intro K V T kf vf td pre post r h
  simp [decodeViewCollection, decodeField, lookupField, FieldSpec.optionField,
    FieldSpec.required, decodeElems_elem_none _ pre post r h]

/-- Witness for the C4 theorem's row-failure-propagation component at a
concrete one-row response. -/
theorem view_value_null_decoding_witness :
    decodeViewCollection (T := Json) (FieldSpec.required decodeJson)
      (FieldSpec.required fromValueString) decodeJson
      (.obj [("rows", .arr [rowValueNull])]) = none :=
  view_value_null_decoding.2.2.2.2.2 Json String Json
    (FieldSpec.required decodeJson) (FieldSpec.required fromValueString)
    decodeJson [] [] rowValueNull (by rfl)

/-- C4 counterexample: the claim groups a `null` and an *absent* value
position together and names `serde_json::Value` as a type that accepts the
absence of a value, but a row without a `value` key fails to decode even
when `V` is `serde_json::Value` (serde's derived deserializer raises
`missing field` for every non-`Option` field type). -/
theorem view_value_null_decoding_counterexample :
    decodeViewItem (T := Json) (FieldSpec.required decodeJson)
      (FieldSpec.required decodeJson) decodeJson rowValueAbsent = none := by
  rfl

/-! ### Claims about bulk-write reconciliation -/

theorem bulkReconcile_cons_success (ops : DocOps T) (d : T) (ds : List T)
    (id rev : String) (os : List BulkOutcome) :
    bulkReconcile ops (d :: ds) (.success id rev :: os)
      = (ops.set_rev (if ops.get_id d = "" then ops.set_id d id else d) rev
           :: (bulkReconcile ops ds os).1,
         .ok ⟨id, rev⟩ :: (bulkReconcile ops ds os).2) := rfl

theorem bulkReconcile_cons_failure (ops : DocOps T) (d : T) (ds : List T)
    (oid : Option String) (st : Nat) (msg : String) (os : List BulkOutcome) :
    bulkReconcile ops (d :: ds) (.failure oid st msg :: os)
      = (d :: (bulkReconcile ops ds os).1,
         .error (CouchError.new_with_id oid msg st)
           :: (bulkReconcile ops ds os).2) := rfl

/-- C3: for a bulk write whose input sequence and server outcome array have
the same length `N`, the reconciler returns exactly `N` per-item results in
input order: the result at every position is determined by the outcome at
that same position (so nothing is reordered, dropped or coalesced); at a
success position the document's revision is updated to the reported value
while a previously non-empty identity is left unchanged, and at a failure
position the document is left unmodified. The `DocOps` laws say that the
document type's revision mutator stores the revision and does not touch the
identity (which holds for any faithful `TypedCouchDocument` impl). -/
theorem bulk_reconcile_spec (T : Type) (ops : DocOps T)
    (hrev : ∀ d r, ops.get_rev (ops.set_rev d r) = r)
    (hid : ∀ d r, ops.get_id (ops.set_rev d r) = ops.get_id d)
    (docs : List T) (outs : List BulkOutcome)
    (hlen : docs.length = outs.length) :
    ((bulkReconcile ops docs outs).2.length = docs.length
      ∧ (bulkReconcile ops docs outs).1.length = docs.length)
  ∧ (∀ (i : Nat) (id rev : String),
        outs.get? i = some (.success id rev) →
        (bulkReconcile ops docs outs).2.get? i = some (.ok ⟨id, rev⟩)
        ∧ ∃ d d2, docs.get? i = some d
            ∧ (bulkReconcile ops docs outs).1.get? i = some d2
            ∧ ops.get_rev d2 = rev
            ∧ (ops.get_id d ≠ "" → ops.get_id d2 = ops.get_id d))
  ∧ (∀ (i : Nat) (oid : Option String) (st : Nat) (msg : String),
        outs.get? i = some (.failure oid st msg) →
        (bulkReconcile ops docs outs).2.get? i
            = some (.error (CouchError.new_with_id oid msg st))
        ∧ (bulkReconcile ops docs outs).1.get? i = docs.get? i) := by
  revert hlen
  induction docs generalizing outs with
  | nil =>
      intro hlen
      cases outs with
      | nil =>
          refine ⟨⟨rfl, rfl⟩, fun i id rev hi => ?_, fun i oid st msg hi => ?_⟩ <;>
            simp [bulkReconcile] at hi
      | cons o os => simp at hlen
  | cons d ds ih =>
      intro hlen
      cases outs with
      | nil => simp at hlen
      | cons o os =>
          have hlen2 : ds.length = os.length := by simpa using hlen
          obtain ⟨⟨ihl2, ihl1⟩, ihs, ihf⟩ := ih os hlen2
          cases o with
          | success id rev =>
              refine ⟨⟨?_, ?_⟩, ?_, ?_⟩
              · simp [bulkReconcile_cons_success, ihl2]
              · simp [bulkReconcile_cons_success, ihl1]
              · intro i id0 rev0 hi
                cases i with
                | zero =>
                    rw [List.get?_cons_zero] at hi
                    injection hi with h
                    injection h with h1 h2
                    subst h1
                    subst h2
                    refine ⟨rfl, d,
                      ops.set_rev (if ops.get_id d = ""
                        then ops.set_id d id else d) rev,
                      rfl, rfl, hrev _ _, fun hne => ?_⟩
                    rw [if_neg hne]
                    exact hid d rev
                | succ n => exact ihs n id0 rev0 hi
              · intro i oid st msg hi
                cases i with
                | zero =>
                    rw [List.get?_cons_zero] at hi
                    injection hi with h
                    exact absurd h (by simp)
                | succ n => exact ihf n oid st msg hi
          | failure oid0 st0 msg0 =>
              refine ⟨⟨?_, ?_⟩, ?_, ?_⟩
              · simp [bulkReconcile_cons_failure, ihl2]
              · simp [bulkReconcile_cons_failure, ihl1]
              · intro i id0 rev0 hi
                cases i with
                | zero =>
                    rw [List.get?_cons_zero] at hi
                    injection hi with h
                    exact absurd h (by simp)
                | succ n => exact ihs n id0 rev0 hi
              · intro i oid st msg hi
                cases i with
                | zero =>
                    rw [List.get?_cons_zero] at hi
                    injection hi with h
                    injection h with h1 h2 h3
                    subst h1
                    subst h2
                    subst h3
                    exact ⟨rfl, rfl⟩
                | succ n => exact ihf n oid st msg hi

/-- A minimal document representation for exercising the reconciler: a pair
of identity and revision, with field accessors and updaters. -/
def pairOps : DocOps (String × String) :=
  { get_id := Prod.fst
    get_rev := Prod.snd
    set_id := fun d id => (id, d.2)
    set_rev := fun d rev => (d.1, rev) }

/-- Witness for the C3 theorem at a concrete two-document bulk write whose
first outcome is a success and second a conflict failure. -/
theorem bulk_reconcile_spec_witness :
    (bulkReconcile pairOps [("", ""), ("a", "r0")]
        [.success "x" "1-a", .failure (some "a") 409 "conflict"]).2.length
      = 2 :=
  (bulk_reconcile_spec (String × String) pairOps
    (fun d r => rfl) (fun d r => rfl)
    [("", ""), ("a", "r0")]
    [.success "x" "1-a", .failure (some "a") 409 "conflict"] (by rfl)).1.1

end CouchRs
